import Mathlib

/-!
Verification development for the NikonRFA serial driver (nikonrfa/rfa.py).

The driver's protocol layer is embedded shallowly:
  * strings are `List Char` or `String`,
  * python floats are modelled exactly as rationals `ℚ`
    (the scale factors 10.0 and 100.0 are exactly representable),
  * the serial transport is an explicit list of incoming bytes / replies,
  * the per-call timeout is a fuel parameter bounding the number of
    single-byte reads the loop may perform,
  * log signals (warnings, infos, errors) are returned as string lists.
-/

namespace NikonRFA

/-! ## Reply framing: `query` (rfa.py lines 240-258)

`query` writes `command + '\r'`, then loops while time remains, reading one
byte per iteration.  A `b"\r"` byte makes it return `buffer[3:-1]`; any other
byte is appended to `buffer`.  If the loop's deadline passes first, the
function falls off its end (python returns `None`).  Reads past the end of
the available bytes return nothing and append nothing. -/

/-- `buffer[3:-1]`: drop the first three characters and the last one
(python slicing clamps, and so do `List.drop`/`List.dropLast`). -/
def sliceReply (buffer : List Char) : List Char :=
  (buffer.drop 3).dropLast

/-- The read loop of `query`: `fuel` bounds the number of iterations the
timeout allows, `stream` is the sequence of bytes the transport will
deliver, `buffer` is the accumulator.  Returns `none` when the deadline
passes without a terminator byte (python falls through and returns `None`). -/
def readReply : Nat → List Char → List Char → Option (List Char)
  | 0, _, _ => none
  | n + 1, [], buffer => readReply n [] buffer
  | n + 1, c :: rest, buffer =>
      if c = '\r' then some (sliceReply buffer)
      else readReply n rest (buffer ++ [c])

/-! ## Port discovery in `__init__` (rfa.py lines 62-74) -/

/-- One entry of `serial.tools.list_ports.comports()`: a device address and
optional vendor/product ids. -/
structure ComPort where
  device : String
  vid : Option ℤ
  pid : Option ℤ
deriving DecidableEq

/-- What the constructor does with the `port` argument before any
communication: either it returns early (zero discovery matches) or it calls
`serial.Serial(port, ...)` with some (possibly absent) port, having logged
the given messages. -/
inductive PortResolution where
  | earlyReturn (logs : List String) : PortResolution
  | openSerial (port : Option String) (logs : List String) : PortResolution
deriving DecidableEq

/-- rfa.py lines 62-74.  When `port` is `None` and vid/pid are ints, the
matching devices are collected; zero matches log an error and return early;
more than one match logs the warning but assigns nothing to `port` (the
assignment `port = found[0]` sits in the `else` branch, reached only for
exactly one match); construction then proceeds to `serial.Serial(port, ...)`
with whatever `port` holds. -/
def resolvePort (port : Option String) (vid pid : Option ℤ)
    (ports : List ComPort) : PortResolution :=
  match port with
  | some p => .openSerial (some p) []
  | none =>
    match vid, pid with
    | some v, some pr =>
        let found :=
          (ports.filter (fun d => d.vid == some v && d.pid == some pr)).map
            (fun d => d.device)
        if found.length == 0 then
          .earlyReturn ["No match found for vid=" ++ toString v ++
            " pis=" ++ toString pr]
        else if found.length > 1 then
          .openSerial none ["Multiple matches found. Using first one"]
        else
          .openSerial found.head? []
    | _, _ =>
        .openSerial none
          ["If port is not supplied, vid and pid need to be supplied (ints)"]

/-! ## Python primitives used by the driver

`int(s)` and `s.split(' ')` are modelled character by character so that they
compute by structural recursion. -/

/-- Digit-string accumulator: `none` as soon as a non-digit appears. -/
def parseDigitsAux : List Char → ℕ → Option ℕ
  | [], acc => some acc
  | c :: rest, acc =>
      if c.isDigit then
        parseDigitsAux rest (acc * 10 + (c.toNat - Char.toNat '0'))
      else none

/-- A non-empty all-digit string parsed as a natural number. -/
def parseDigits : List Char → Option ℕ
  | [] => none
  | cs => parseDigitsAux cs 0

/-- Python `int(s)` on the reply strings the device produces: an optional
sign followed by one or more decimal digits; anything else raises
(modelled as `none`). -/
def pyInt (s : String) : Option ℤ :=
  match s.toList with
  | '-' :: rest => (parseDigits rest).map (fun n => -(n : ℤ))
  | '+' :: rest => (parseDigits rest).map (fun n => (n : ℤ))
  | cs => (parseDigits cs).map (fun n => (n : ℤ))

/-- Python `s.split(' ')`: split at every single space, keeping empty
pieces.  Auxiliary: `acc` is the current piece, reversed. -/
def splitSpaceAux : List Char → List Char → List (List Char)
  | [], acc => [acc.reverse]
  | c :: rest, acc =>
      if c = ' ' then acc.reverse :: splitSpaceAux rest []
      else splitSpaceAux rest (c :: acc)

/-- Python `s.split(' ')` over the characters of `s`. -/
def splitSpace (cs : List Char) : List (List Char) :=
  splitSpaceAux cs []

/-! ## Controller state and stateful operations -/

/-- The controller's mutable attributes relevant to the claims:
`_pos`, `_moved_since_last_read`, `_units_per_um`, `_smallest_um_step`.
Floats are modelled as rationals. -/
structure RFAState where
  pos : ℚ
  movedSinceLastRead : Bool
  unitsPerUm : ℚ
  smallestUmStep : ℚ
deriving DecidableEq

/-- Result of one stateful operation: its return value, the new state, the
commands sent over the transport (in order), and the log signals emitted. -/
structure OpResult (α : Type) where
  val : α
  state : RFAState
  sent : List String
  warnings : List String
deriving DecidableEq

/-- rfa.py lines 148-162 (`get_position`).  Sends `WZ`; on an integer reply
(`int(reply)`, modelled by `pyInt`) divides by `_units_per_um`, stores the
result in `_pos`, clears `_moved_since_last_read` and returns the position;
any parse failure is caught and logged, leaving the state unchanged. -/
def get_position (s : RFAState) (reply : String) : OpResult (Option ℚ) :=
  match pyInt reply with
  | some n =>
      let p : ℚ := (n : ℚ) / s.unitsPerUm
      ⟨some p, { s with pos := p, movedSinceLastRead := false }, ["WZ"], []⟩
  | none => ⟨none, s, ["WZ"], ["unexpected message: " ++ reply]⟩

/-- rfa.py lines 191-206 (the `pos` property).  If a move was issued since
the last read, delegate to `get_position` (one `WZ` exchange); otherwise
return the cached `_pos` with no transport interaction. -/
def pos_accessor (s : RFAState) (reply : String) : OpResult (Option ℚ) :=
  if s.movedSinceLastRead then get_position s reply
  else ⟨some s.pos, s, [], []⟩

/-- rfa.py lines 90-92, the tail of `__init__`: `self.get_position()` seeds
`_pos` (and sets `_moved_since_last_read = False` inside), after which line
92 assigns `self._moved_since_last_read = True`. -/
def initSeedPosition (s : RFAState) (wzReply : String) : RFAState :=
  let s1 := (get_position s wzReply).state
  { s1 with movedSinceLastRead := true }

/-! ## Resolution parsing: `_get_resolution_info` (rfa.py lines 208-220) -/

/-- The `if fraction == 'HUNDREDTHS' ... elif fraction == 'TENTHS' ...`
chain: a matching unit word sets the scale, any other word leaves
`_units_per_um` whatever it was before (undefined at init, hence the
`Option`). -/
def resolutionScale (fraction : String) (old : Option ℚ) : Option ℚ :=
  if fraction = "HUNDREDTHS" then some 100
  else if fraction = "TENTHS" then some 10
  else old

/-- rfa.py lines 208-220: `number, fraction = reply.split(' ')`, then the
unit-word chain above, then `_smallest_um_step = int(number)`.  A reply that
is not exactly two space-separated tokens, or whose first token is not an
integer, raises in python (modelled as `none`). -/
def resolutionParse (reply : String) (old : Option ℚ) :
    Option (Option ℚ × ℤ) :=
  match splitSpace reply.toList with
  | [number, fraction] =>
      match pyInt (String.mk number) with
      | some n => some (resolutionScale (String.mk fraction) old, n)
      | none => none
  | _ => none

/-! ## Unit conversion (rfa.py lines 122-131 and 148-162)

Moves send `int(round(um * self._units_per_um))`; position replies come
back as `int(reply) / self._units_per_um`.  Python 3's `round` rounds
halves to the nearest even integer, and `int` of its result is the result
itself. -/

/-- Python 3 `round` on a real value: nearest integer, ties to even. -/
def pyRound (x : ℚ) : ℤ :=
  if Int.fract x < 1 / 2 then Int.floor x
  else if 1 / 2 < Int.fract x then Int.floor x + 1
  else if Int.floor x % 2 = 0 then Int.floor x else Int.floor x + 1

/-- Micrometers to device units, as in `absmove`/`relmove`/
`redefine_position`: `int(round(um * self._units_per_um))`. -/
def deviceUnits (upm : ℚ) (um : ℚ) : ℤ :=
  pyRound (um * upm)

/-- Device units back to micrometers, as in `get_position`:
`int(reply) / self._units_per_um`. -/
def toMicrons (upm : ℚ) (u : ℤ) : ℚ :=
  (u : ℚ) / upm

/-! ## Command tokens actually sent (rfa.py lines 75-359)

The constructor and the underscore methods send uppercase tokens
(`WHO`, `VERSION`, `RESOLUTION`, `ENCODER`, `WZ`, `MZ`, `RZ`, `HZ`), while
`halt`, `reset`, `zero` and the speed/slope properties send lowercase
tokens. -/

def whoCommand : String := "WHO"

def versionCommand : String := "VERSION"

def resolutionCommand : String := "RESOLUTION"

def wzCommand : String := "WZ"

/-- rfa.py line 269: `self.query("halt")`. -/
def haltCommand : String := "halt"

/-- rfa.py line 276: `self.query("reset")`. -/
def resetCommand : String := "reset"

/-- rfa.py line 284: `self.query("zero")`. -/
def zeroCommand : String := "zero"

/-- rfa.py line 304: the `maxspeed` getter sends `self.query('speed')`. -/
def maxspeedGetCommand : String := "speed"

/-- rfa.py line 326: the `minspeed` getter sends `self.query('minspeed')`. -/
def minspeedGetCommand : String := "minspeed"

/-- rfa.py line 347: the `rampslope` getter sends
`self.query('rampslope')`. -/
def rampslopeGetCommand : String := "rampslope"

/-- rfa.py lines 307-316, the `maxspeed` setter: `v = int(v)`, clamp below
50 to 50 (warning), above 60000 to 60000 (warning), then send
`'speed {}'.format(v)`.  Returns the command sent and the warnings
emitted. -/
def maxspeedSetter (v : ℤ) : String × List String :=
  if v < 50 then ("speed " ++ toString (50 : ℤ), ["minimum speed is 50"])
  else if v > 60000 then
    ("speed " ++ toString (60000 : ℤ), ["maximum speed is 60000"])
  else ("speed " ++ toString v, [])

/-- rfa.py lines 329-338, the `minspeed` setter: same clamps as `maxspeed`,
command `'minspeed {}'.format(v)`. -/
def minspeedSetter (v : ℤ) : String × List String :=
  if v < 50 then ("minspeed " ++ toString (50 : ℤ), ["minimum speed is 50"])
  else if v > 60000 then
    ("minspeed " ++ toString (60000 : ℤ), ["maximum speed is 60000"])
  else ("minspeed " ++ toString v, [])

/-- rfa.py lines 350-359, the `rampslope` setter: `a = int(a)`, clamp below
1 to 1, above 255 to 255 (warnings), then send
`'rampslope {}'.format(a)`. -/
def rampslopeSetter (a : ℤ) : String × List String :=
  if a < 1 then ("rampslope " ++ toString (1 : ℤ), ["minimum acceleration is 1"])
  else if a > 255 then
    ("rampslope " ++ toString (255 : ℤ), ["maximum acceleration is  255"])
  else ("rampslope " ++ toString a, [])

/-! ## `smallest_um_step` setter (rfa.py lines 234-238) -/

/-- rfa.py lines 234-238: assigning the `smallest_um_step` property.  If
the new value differs from the stored one, an info signal is logged and the
field is overwritten; otherwise nothing happens.  No command is ever sent,
so the `sent` component (middle) is always empty.  Returns
(new state, sent commands, info signals). -/
def smallestStepSetter (s : RFAState) (um_step : ℚ) :
    RFAState × List String × List String :=
  if um_step ≠ s.smallestUmStep then
    ({ s with smallestUmStep := um_step }, [],
      ["Modifying smallest_um_step from " ++ toString s.smallestUmStep ++
        " to " ++ toString um_step])
  else (s, [], [])

/-! ## Helper lemmas -/

/-- Running the read loop over terminator-free bytes `cs` followed by a
terminator accumulates `cs` onto the buffer and returns the sliced
buffer, provided the fuel outlasts `cs`. -/
theorem readReply_scan (cs : List Char) :
    ∀ (n : Nat) (buffer rest : List Char), '\r' ∉ cs → cs.length < n →
      readReply n (cs ++ '\r' :: rest) buffer =
        some (sliceReply (buffer ++ cs)) := by
  induction cs with
  | nil =>
      intro n buffer rest _ hn
      match n, hn with
      | m + 1, _ => simp [readReply]
  | cons c cs ih =>
      intro n buffer rest hmem hn
      match n, hn with
      | m + 1, hn =>
        have hc : c ≠ '\r' := fun h => hmem (h ▸ List.mem_cons_self c cs)
        have hm : cs.length < m := by
          simpa using Nat.lt_of_succ_lt_succ hn
        simp only [List.cons_append, readReply, if_neg hc, List.append_eq]
        rw [ih m (buffer ++ [c]) rest (fun h => hmem (List.mem_cons_of_mem _ h)) hm]
        simp

/-- If the byte stream never delivers a terminator, the read loop burns all
its fuel and returns `none` (python `query` falls off the end, returning
`None`), for any accumulated buffer. -/
theorem readReply_noTerminator (n : Nat) :
    ∀ (cs buffer : List Char), '\r' ∉ cs → readReply n cs buffer = none := by
  induction n with
  | zero => intro cs buffer _; rfl
  | succ n ih =>
      intro cs buffer hmem
      match cs with
      | [] => simpa [readReply] using ih [] buffer (by simp)
      | c :: rest =>
          have hc : c ≠ '\r' := fun h => hmem (h ▸ List.mem_cons_self c rest)
          simp only [readReply, if_neg hc]
          exact ih rest (buffer ++ [c]) (fun h => hmem (List.mem_cons_of_mem _ h))

/-- Python `round` lands within one half of its argument. -/
theorem abs_pyRound_sub_le (x : ℚ) : |(pyRound x : ℚ) - x| ≤ 1 / 2 := by
  have h0 : 0 ≤ Int.fract x := Int.fract_nonneg x
  have h1 : Int.fract x < 1 := Int.fract_lt_one x
  have hd : Int.fract x = x - Int.floor x := rfl
  rw [abs_le]
  unfold pyRound
  split_ifs with hlt hgt hev <;> constructor <;> push_cast <;> linarith [hd]

/-! ## Claims -/

/-- C1, counterexample: the raw transport line `"001-42\r"` does not yield
payload `"-42"`; the query loop never appends the terminator to the buffer,
so `buffer[3:-1]` strips the prefix `"001"` and the payload's own last
character, yielding `"-4"`. -/
theorem c1_counterexample :
    readReply 10 "001-42\r".toList [] = some "-4".toList ∧
    readReply 10 "001-42\r".toList [] ≠ some "-42".toList := by decide

/-- C1 (amended): for every raw reply line framed as
`<3-char prefix><payload><terminator>`, the query primitive strips the three
leading prefix characters and one further character — the last character of
the payload — because the terminator byte is never part of the accumulated
buffer that `buffer[3:-1]` slices.  The caller receives `payload.dropLast`;
in particular `"001-42\r"` yields `"-4"`. -/
theorem c1_query_framing (pre payload rest : List Char) (n : Nat)
    (hpre : pre.length = 3) (hpreT : '\r' ∉ pre) (hpayT : '\r' ∉ payload)
    (hn : pre.length + payload.length < n) :
    readReply n (pre ++ (payload ++ '\r' :: rest)) [] =
      some payload.dropLast := by
  have hmem : '\r' ∉ pre ++ payload := by
    intro h
    rcases List.mem_append.mp h with h | h
    · exact hpreT h
    · exact hpayT h
  have hlen : (pre ++ payload).length < n := by
    simpa [List.length_append] using hn
  have hrun := readReply_scan (pre ++ payload) n [] rest hmem hlen
  rw [List.append_assoc] at hrun
  rw [hrun]
  unfold sliceReply
  rw [List.nil_append]
  congr 1
  rw [← hpre, List.drop_left]

theorem c1_witness :
    readReply 10 ("001".toList ++ ("-42".toList ++ '\r' :: [])) [] =
      some ("-42".toList).dropLast :=
  c1_query_framing "001".toList "-42".toList [] 10 (by decide) (by decide)
    (by decide) (by decide)

/-- C2 (code bug), evaluated at the failing input: with `port=None`,
`vid=1`, `pid=2` and two matching com ports `COM3` and `COM4`, the
constructor logs "Multiple matches found. Using first one" but the local
`port` variable is never assigned in that branch (the assignment
`port = matches[0]` sits in the `else` of the `elif`), so
`serial.Serial` is called with `None` — not with the first match's
address `COM3` as claimed. -/
theorem c2_multi_match_bug :
    resolvePort none (some 1) (some 2)
        [⟨"COM3", some 1, some 2⟩, ⟨"COM4", some 1, some 2⟩] =
      PortResolution.openSerial none
        ["Multiple matches found. Using first one"] ∧
    PortResolution.openSerial none
        ["Multiple matches found. Using first one"] ≠
      PortResolution.openSerial (some "COM3")
        ["Multiple matches found. Using first one"] := by decide

/-- C3, counterexample: at the end of construction the dirty flag is `true`
(line 92 `self._moved_since_last_read = True` overwrites the `False` that
`get_position` had just set), so the first `pos` access goes to the
transport (`sent ≠ []`) instead of returning the cached value silently. -/
theorem c3_counterexample :
    (initSeedPosition ⟨0, false, 100, 5⟩ "500").movedSinceLastRead = true ∧
    (pos_accessor (initSeedPosition ⟨0, false, 100, 5⟩ "500") "500").sent
      ≠ [] := by decide

/-- C3 (amended): at the end of every successful construction the position
cache does hold the value read via `WZ`, but the cache is marked dirty
(`_moved_since_last_read = True`), so the first subsequent `pos` access
performs one fresh `WZ` read instead of returning the cached value without
transport interaction. -/
theorem c3_init_cache_dirty (s : RFAState) (reply reply2 : String) (n : ℤ)
    (hn : pyInt reply = some n) :
    (initSeedPosition s reply).pos = (n : ℚ) / s.unitsPerUm ∧
    (initSeedPosition s reply).movedSinceLastRead = true ∧
    (pos_accessor (initSeedPosition s reply) reply2).sent = [wzCommand] := by
  refine ⟨?_, ?_, ?_⟩
  · simp [initSeedPosition, get_position, hn]
  · simp [initSeedPosition]
  · simp only [pos_accessor, initSeedPosition]
    cases h2 : pyInt reply2 <;> simp [get_position, h2, wzCommand]

theorem c3_witness :
    (initSeedPosition ⟨0, false, 100, 5⟩ "500").pos =
      ((500 : ℤ) : ℚ) / RFAState.unitsPerUm ⟨0, false, 100, 5⟩ ∧
    (initSeedPosition ⟨0, false, 100, 5⟩ "500").movedSinceLastRead = true ∧
    (pos_accessor (initSeedPosition ⟨0, false, 100, 5⟩ "500") "500").sent =
      [wzCommand] :=
  c3_init_cache_dirty ⟨0, false, 100, 5⟩ "500" "500" 500 (by decide)

/-- C4, counterexample: when the timeout elapses before a terminator byte is
seen (here: the stream `"001-42"` holds no `\r`), the call does NOT return
the accumulated bytes — it returns nothing at all (python `None`). -/
theorem c4_counterexample :
    readReply 10 "001-42".toList [] = none ∧
    readReply 10 "001-42".toList [] ≠ some "001-42".toList := by decide

/-- C4 (amended): for every call of the query primitive in which the
timeout elapses before the terminator byte is seen, the call returns `none`
(python `None`): the accumulated bytes are discarded, though no exception
is raised and the transport is not aborted. -/
theorem c4_timeout_none (n : Nat) (cs buffer : List Char) (h : '\r' ∉ cs) :
    readReply n cs buffer = none :=
  readReply_noTerminator n cs buffer h

theorem c4_witness : readReply 5 "001".toList [] = none :=
  c4_timeout_none 5 "001".toList [] (by decide)

/-- C5: the `pos` property: with a clean cache it returns the cached
position, touching neither the transport (no command sent) nor the state;
with a dirty cache it performs exactly one `WZ` exchange and returns the
freshly parsed value, storing it and clearing the flag. -/
theorem c5_pos_cache_semantics (s : RFAState) (reply : String) :
    (s.movedSinceLastRead = false →
      pos_accessor s reply = ⟨some s.pos, s, [], []⟩) ∧
    (s.movedSinceLastRead = true → ∀ n : ℤ, pyInt reply = some n →
      pos_accessor s reply =
        ⟨some ((n : ℚ) / s.unitsPerUm),
          { s with pos := (n : ℚ) / s.unitsPerUm,
                   movedSinceLastRead := false },
          [wzCommand], []⟩) := by
  constructor
  · intro h
    simp [pos_accessor, h]
  · intro h n hn
    simp [pos_accessor, get_position, h, hn, wzCommand]

theorem c5_witness :
    pos_accessor ⟨7, false, 100, 5⟩ "ignored" =
      ⟨some (RFAState.pos ⟨7, false, 100, 5⟩), ⟨7, false, 100, 5⟩, [], []⟩ ∧
    pos_accessor ⟨7, true, 100, 5⟩ "250" =
      ⟨some (((250 : ℤ) : ℚ) / RFAState.unitsPerUm ⟨7, true, 100, 5⟩),
        { (⟨7, true, 100, 5⟩ : RFAState) with
            pos := ((250 : ℤ) : ℚ) / RFAState.unitsPerUm ⟨7, true, 100, 5⟩,
            movedSinceLastRead := false },
        [wzCommand], []⟩ :=
  ⟨(c5_pos_cache_semantics ⟨7, false, 100, 5⟩ "ignored").1 rfl,
   (c5_pos_cache_semantics ⟨7, true, 100, 5⟩ "250").2 rfl 250 (by decide)⟩

/-- C6: the speed and slope setters clamp every out-of-range input to the
nearest bound and emit a warning — `maxspeed` input 10 is sent as 50 and
999999 as 60000 (range 50–60000), `rampslope` input 0 is sent as 1 and 300
as 255 (range 1–255) — while in-range inputs are sent unchanged with no
warning. -/
theorem c6_setters_clamp :
    maxspeedSetter 10 = ("speed 50", ["minimum speed is 50"]) ∧
    maxspeedSetter 999999 = ("speed 60000", ["maximum speed is 60000"]) ∧
    rampslopeSetter 0 = ("rampslope 1", ["minimum acceleration is 1"]) ∧
    rampslopeSetter 300 = ("rampslope 255", ["maximum acceleration is  255"]) ∧
    (∀ v : ℤ, v < 50 →
      maxspeedSetter v = ("speed 50", ["minimum speed is 50"]) ∧
      minspeedSetter v = ("minspeed 50", ["minimum speed is 50"])) ∧
    (∀ v : ℤ, 60000 < v →
      maxspeedSetter v = ("speed 60000", ["maximum speed is 60000"]) ∧
      minspeedSetter v = ("minspeed 60000", ["maximum speed is 60000"])) ∧
    (∀ a : ℤ, a < 1 →
      rampslopeSetter a = ("rampslope 1", ["minimum acceleration is 1"])) ∧
    (∀ a : ℤ, 255 < a →
      rampslopeSetter a = ("rampslope 255", ["maximum acceleration is  255"])) ∧
    (∀ v : ℤ, 50 ≤ v → v ≤ 60000 →
      maxspeedSetter v = ("speed " ++ toString v, []) ∧
      minspeedSetter v = ("minspeed " ++ toString v, [])) ∧
    (∀ a : ℤ, 1 ≤ a → a ≤ 255 →
      rampslopeSetter a = ("rampslope " ++ toString a, [])) := by
  refine ⟨by decide, by decide, by decide, by decide, ?_, ?_, ?_, ?_, ?_, ?_⟩
  · intro v hv
    constructor
    · unfold maxspeedSetter; rw [if_pos hv]; decide
    · unfold minspeedSetter; rw [if_pos hv]; decide
  · intro v hv
    constructor
    · unfold maxspeedSetter; rw [if_neg (by omega), if_pos hv]; decide
    · unfold minspeedSetter; rw [if_neg (by omega), if_pos hv]; decide
  · intro a ha
    unfold rampslopeSetter; rw [if_pos ha]; decide
  · intro a ha
    unfold rampslopeSetter; rw [if_neg (by omega), if_pos ha]; decide
  · intro v h1 h2
    constructor
    · unfold maxspeedSetter; rw [if_neg (by omega), if_neg (by omega)]
    · unfold minspeedSetter; rw [if_neg (by omega), if_neg (by omega)]
  · intro a h1 h2
    unfold rampslopeSetter; rw [if_neg (by omega), if_neg (by omega)]

theorem c6_witness :
    maxspeedSetter 100 = ("speed " ++ toString (100 : ℤ), []) ∧
    minspeedSetter 100 = ("minspeed " ++ toString (100 : ℤ), []) ∧
    rampslopeSetter 7 = ("rampslope " ++ toString (7 : ℤ), []) :=
  ⟨(c6_setters_clamp.2.2.2.2.2.2.2.2.1 100 (by decide) (by decide)).1,
   (c6_setters_clamp.2.2.2.2.2.2.2.2.1 100 (by decide) (by decide)).2,
   c6_setters_clamp.2.2.2.2.2.2.2.2.2 7 (by decide) (by decide)⟩

/-- C7: resolution parsing splits the reply into an integer token and a
unit word: `"5 HUNDREDTHS"` yields scale 100 and smallest step 5,
`"2 TENTHS"` yields scale 10 and smallest step 2, and any other unit word
leaves the scale whatever it was (undefined at initialization) while the
integer token still becomes the smallest step. -/
theorem c7_resolution_parsing :
    resolutionParse "5 HUNDREDTHS" none = some (some 100, 5) ∧
    resolutionParse "2 TENTHS" none = some (some 10, 2) ∧
    resolutionParse "5 MILLS" none = some (none, 5) ∧
    (∀ (fraction : String) (old : Option ℚ), fraction ≠ "HUNDREDTHS" →
      fraction ≠ "TENTHS" → resolutionScale fraction old = old) := by
  refine ⟨by decide, by decide, by decide, ?_⟩
  intro fraction old h1 h2
  simp [resolutionScale, h1, h2]

theorem c7_witness : resolutionScale "MILLS" (some 100) = some 100 :=
  c7_resolution_parsing.2.2.2 "MILLS" (some 100) (by decide) (by decide)

/-- C8: for every micrometer value the device-unit conversion is
`round(um * unitsPerMicrometer)` (python's round, ties to even), and
converting back by dividing by `unitsPerMicrometer` lands within
`1/unitsPerMicrometer` of the original value. -/
theorem c8_unit_roundtrip (upm um : ℚ) (hpos : 0 < upm) :
    deviceUnits upm um = pyRound (um * upm) ∧
    |toMicrons upm (deviceUnits upm um) - um| ≤ 1 / upm := by
  refine ⟨rfl, ?_⟩
  have h := abs_pyRound_sub_le (um * upm)
  have hne : upm ≠ 0 := ne_of_gt hpos
  have heq : toMicrons upm (deviceUnits upm um) - um =
      ((pyRound (um * upm) : ℚ) - um * upm) / upm := by
    unfold toMicrons deviceUnits
    field_simp
    ring
  rw [heq, abs_div, abs_of_pos hpos]
  exact le_trans ((div_le_div_iff_of_pos_right hpos).mpr h)
    ((div_le_div_iff_of_pos_right hpos).mpr (by norm_num))

theorem c8_witness :
    deviceUnits 100 (3 / 2) = pyRound ((3 / 2) * 100) ∧
    |toMicrons 100 (deviceUnits 100 (3 / 2)) - 3 / 2| ≤ 1 / 100 :=
  c8_unit_roundtrip 100 (3 / 2) (by norm_num)

/-- C9, counterexample: the simple-motion and speed/slope operations do not
send the uppercase wire tokens the claim names — `halt()` sends `"halt"`,
not `"HALT"`, and likewise for the others. -/
theorem c9_counterexample :
    haltCommand ≠ "HALT" ∧ resetCommand ≠ "RESET" ∧
    zeroCommand ≠ "ZERO" ∧ maxspeedGetCommand ≠ "SPEED" ∧
    minspeedGetCommand ≠ "MINSPEED" ∧
    rampslopeGetCommand ≠ "RAMPSLOPE" := by decide

/-- C9 (amended): `halt()`, `reset()` and `zero()` send the lowercase
tokens `"halt"`, `"reset"`, `"zero"`, and the speed/slope accessors send
`"speed"`, `"minspeed"`, `"rampslope"` (with the numeric argument appended
when setting), while the initialization queries `WHO`, `VERSION`,
`RESOLUTION` and `WZ` are sent uppercase. -/
theorem c9_command_tokens :
    haltCommand = "halt" ∧ resetCommand = "reset" ∧ zeroCommand = "zero" ∧
    maxspeedGetCommand = "speed" ∧ (maxspeedSetter 100).1 = "speed 100" ∧
    minspeedGetCommand = "minspeed" ∧
    (minspeedSetter 100).1 = "minspeed 100" ∧
    rampslopeGetCommand = "rampslope" ∧
    (rampslopeSetter 7).1 = "rampslope 7" ∧
    whoCommand = "WHO" ∧ versionCommand = "VERSION" ∧
    resolutionCommand = "RESOLUTION" ∧ wzCommand = "WZ" := by decide

/-- C10: assigning the `smallest_um_step` property never touches the
transport and changes at most the stored smallest-step field; when the
assigned value equals the stored one, the state is left untouched and no
signal is emitted. -/
theorem c10_smallest_step_setter (s : RFAState) (v : ℚ) :
    (smallestStepSetter s v).2.1 = [] ∧
    (smallestStepSetter s v).1.pos = s.pos ∧
    (smallestStepSetter s v).1.movedSinceLastRead = s.movedSinceLastRead ∧
    (smallestStepSetter s v).1.unitsPerUm = s.unitsPerUm ∧
    (v = s.smallestUmStep → smallestStepSetter s v = (s, [], [])) := by
  unfold smallestStepSetter
  split_ifs with h <;> simp_all

theorem c10_witness :
    smallestStepSetter ⟨0, false, 100, 5⟩ 5 = (⟨0, false, 100, 5⟩, [], []) :=
  (c10_smallest_step_setter ⟨0, false, 100, 5⟩ 5).2.2.2.2 rfl

end NikonRFA
